import Mathlib

/-!
Verification development for the FMD detection web application.

Shallow embedding of the core logic of the repository:
  - detection/services.py   : result classifier (parse_roboflow_result, analyze_cattle_image)
  - detection/views.py      : upload flow (upload_image_view) and statistics (update_statistics)
  - detection/models.py     : Detection and SystemStatistics field defaults
  - detection/reports.py    : ReportGenerator.get_report_data and _generate_recommendations
  - detection/forms.py      : DetectionUploadForm.clean_image

Numeric confidences are modelled as rationals; Python dictionaries with
possibly-missing keys are modelled as structures with Option fields.
-/

namespace FMD

/-! ## String helpers

Python substring containment (the expression pat in s on strings) and
str.lower, modelled on character lists.  leadMatch pat s checks that pat
occurs at the head of s; occurs pat s checks occurrence at any position. -/

def leadMatch : List Char → List Char → Bool
  | [], _ => true
  | _ :: _, [] => false
  | a :: as, b :: bs => a == b && leadMatch as bs

def occurs (pat : List Char) : List Char → Bool
  | [] => leadMatch pat []
  | c :: rest => leadMatch pat (c :: rest) || occurs pat rest

/-- Python: pat in s (substring containment). -/
def strOccurs (pat s : String) : Bool :=
  occurs pat.data s.data

/-- Python str.lower, character by character (the labels involved are
ASCII). -/
def lowerString (s : String) : String :=
  ⟨s.data.map Char.toLower⟩

/-! ## Rounding

Python round(x, 2): round half to even (banker rounding), at 2 decimal
places. -/

def roundHalfEven (x : ℚ) : ℤ :=
  let f := ⌊x⌋
  let r := x - f
  if r < 1/2 then f
  else if r > 1/2 then f + 1
  else if f % 2 = 0 then f else f + 1

def round2 (x : ℚ) : ℚ :=
  (roundHalfEven (x * 100) : ℚ) / 100

/-! ## Result classifier (detection/services.py) -/

/-- Result categories stored in Detection.result (models.py RESULT_CHOICES).
The spec renames them: fmd = disease_positive, not_cow = not_subject. -/
inductive ResultCategory
  | healthy
  | fmd
  | not_cow
  | inconclusive
  deriving DecidableEq, Repr

/-- One prediction object of the Roboflow response; both keys may be
missing (the code reads them with dict.get and a default). -/
structure Prediction where
  cls : Option String
  confidence : Option ℚ
  deriving DecidableEq, Repr

/-- Raw Roboflow response: the predictions key may be absent. -/
structure RoboflowResult where
  predictions : Option (List Prediction)
  deriving DecidableEq, Repr

/-- services.py line 81 key function: x.get("confidence", 0). -/
def getConfidence (p : Prediction) : ℚ :=
  p.confidence.getD 0

/-- services.py line 84: highest_confidence_pred.get("class", "").lower(). -/
def getClass (p : Prediction) : String :=
  lowerString (p.cls.getD "")

/-- Python max(predictions, key=...) starting from head a over tail l:
keeps the current maximum and replaces it only on strictly larger key,
so ties resolve to the first-seen element. -/
def pickMax (a : Prediction) (l : List Prediction) : Prediction :=
  l.foldl (fun acc q => if getConfidence q > getConfidence acc then q else acc) a

/-- services.py lines 88-96: case-insensitive substring mapping of the
(already lowercased) detected class, in fixed priority order. -/
def mapClass (detected : String) : ResultCategory :=
  if strOccurs "fmd" detected || strOccurs "foot-and-mouth" detected
      || strOccurs "disease" detected then
    .fmd
  else if strOccurs "healthy" detected || strOccurs "normal" detected then
    .healthy
  else if strOccurs "cow" detected || strOccurs "cattle" detected then
    .inconclusive
  else
    .not_cow

/-- services.py lines 61-108, parse_roboflow_result.  Returns the pair
(result, confidence).  The body of the Python try block performs only
total dictionary accesses with defaults, so the except branch (returning
inconclusive) is unreachable for dictionary-shaped input and the
function is modelled as total over the optional-field data model. -/
def parse_roboflow_result (result : RoboflowResult) : ResultCategory × ℚ :=
  match result.predictions with
  | none => (.not_cow, 0)
  | some [] => (.not_cow, 0)
  | some (p :: ps) =>
    let best := pickMax p ps
    let detected := getClass best
    let confidence := getConfidence best * 100
    (mapClass detected, round2 confidence)

/-! ## Detection record lifecycle (detection/models.py, detection/views.py) -/

/-- Detection.status (models.py STATUS_CHOICES). -/
inductive Status
  | pending
  | analyzing
  | completed
  | failed
  deriving DecidableEq, Repr

/-- Detection record (models.py lines 41-55): the fields the lifecycle
touches.  Timestamps are abstract instants (Nat). -/
structure Detection where
  id : Nat
  status : Status
  result : Option ResultCategory
  confidence_score : Option ℚ
  uploaded_at : Nat
  analyzed_at : Option Nat
  deriving DecidableEq, Repr

/-- Field defaults of models.py: id fresh, status pending, result and
confidence null, uploaded_at auto_now_add, analyzed_at null. -/
def newDetection (id now : Nat) : Detection :=
  { id := id
    status := .pending
    result := none
    confidence_score := none
    uploaded_at := now
    analyzed_at := none }

/-- Record creation with a fresh-id supply: the id allocator state is a
counter, incremented at each creation (models the never-reused uuid4
default of models.py line 41). -/
def createDetection (counter now : Nat) : Detection × Nat :=
  (newDetection counter now, counter + 1)

/-- Ids handed out by n successive creations starting with allocator
state c (the time argument does not influence the id). -/
def createdIds (c : Nat) : Nat → List Nat
  | 0 => []
  | n + 1 => (createDetection c 0).1.id :: createdIds (createDetection c 0).2 n

/-- Outcome dictionary of services.py analyze_cattle_image. -/
structure AnalysisResult where
  success : Bool
  status : Status
  result : ResultCategory
  confidence_score : ℚ
  deriving DecidableEq, Repr

/-- services.py lines 22-58, analyze_cattle_image.  The external
inference call either yields a raw response or raises; the function
catches every exception and reports failure. -/
def analyze_cattle_image (api : Except String RoboflowResult) : AnalysisResult :=
  match api with
  | .ok raw =>
    let analysis := parse_roboflow_result raw
    { success := true, status := .completed
      result := analysis.1, confidence_score := analysis.2 }
  | .error _ =>
    { success := false, status := .failed
      result := .inconclusive, confidence_score := 0 }

/-- views.py lines 162-168, the success branch of upload_image_view:
unconditionally sets status (completed), result, confidence and the
analyzed timestamp.  There is no state check and no exception. -/
def completeAnalysis (d : Detection) (a : AnalysisResult) (now : Nat) : Detection :=
  { d with
    status := a.status
    result := some a.result
    confidence_score := some a.confidence_score
    analyzed_at := some now }

/-- views.py lines 190-192 (and 198-200), the failure branch: only the
status field is assigned; analyzed_at, result and confidence are left
untouched. -/
def failAnalysis (d : Detection) : Detection :=
  { d with status := .failed }

/-- views.py upload_image_view, primary flow for one upload: the record
is created with model defaults (pending), moved to analyzing and saved,
then analysis runs and the record reaches a terminal state.  The list
collects every state the record goes through. -/
def uploadFlow (id now : Nat) (api : Except String RoboflowResult) : List Detection :=
  let d0 := { newDetection id now with status := .analyzing }
  let a := analyze_cattle_image api
  if a.success then
    [newDetection id now, d0, completeAnalysis d0 a now]
  else
    [newDetection id now, d0, failAnalysis d0]

/-- views.py lines 170-171: update_statistics is called exactly on the
success branch (never on the failure or exception branches). -/
def uploadFlowStats (api : Except String RoboflowResult) : Bool :=
  (analyze_cattle_image api).success

/-- The transitions the spec permits on a detection record. -/
def permittedTransition : Status → Status → Prop
  | .pending, .analyzing => True
  | .analyzing, .completed => True
  | .analyzing, .failed => True
  | _, _ => False

/-! ## Statistics aggregator (views.py update_statistics, models.py SystemStatistics) -/

/-- SystemStatistics counters (models.py lines 80-94); the date key is
left implicit, one value of this type is the row of one date. -/
structure SystemStatistics where
  total_scans : Nat
  fmd_detected : Nat
  healthy_cattle : Nat
  not_cow_detected : Nat
  deriving DecidableEq, Repr

/-- Counter defaults of models.py lines 83-86 (the lazily created row). -/
def freshStats : SystemStatistics :=
  { total_scans := 0, fmd_detected := 0, healthy_cattle := 0, not_cow_detected := 0 }

/-- views.py lines 214-228, update_statistics: total_scans always grows
by one; exactly one matching counter grows for fmd, healthy and not_cow;
inconclusive touches no specific counter. -/
def update_statistics (s : SystemStatistics) (result : ResultCategory) : SystemStatistics :=
  let s1 := { s with total_scans := s.total_scans + 1 }
  match result with
  | .fmd => { s1 with fmd_detected := s1.fmd_detected + 1 }
  | .healthy => { s1 with healthy_cattle := s1.healthy_cattle + 1 }
  | .not_cow => { s1 with not_cow_detected := s1.not_cow_detected + 1 }
  | .inconclusive => s1

/-- A sequence of update calls on one daily row, oldest first. -/
def runUpdates (s : SystemStatistics) (rs : List ResultCategory) : SystemStatistics :=
  rs.foldl update_statistics s

/-! ## Report summarizer (detection/reports.py) -/

/-- Report types accepted by ReportGenerator (views validate the type
against daily, weekly, monthly before constructing it). -/
inductive ReportType
  | daily
  | weekly
  | monthly
  deriving DecidableEq, Repr

/-- The aggregate fields of the dictionary built by
ReportGenerator.get_report_data (reports.py lines 83-113), together with
the two extra percentages computed inline in the summary table of
generate (reports.py lines 166-167) with the same guarded formula. -/
structure ReportData where
  total_scans : Nat
  fmd_detected : Nat
  healthy_cattle : Nat
  not_cow : Nat
  inconclusive : Nat
  avg_confidence : ℚ
  fmd_percentage : ℚ
  healthy_percentage : ℚ
  not_cow_percentage : ℚ
  inconclusive_percentage : ℚ
  deriving DecidableEq, Repr

/-- reports.py line 98: records with status completed and confidence
present. -/
def completedWithConfidence (ds : List Detection) : List Detection :=
  ds.filter (fun d => d.status = Status.completed ∧ d.confidence_score.isSome)

/-- Sum of the confidence scores of a record list (absent scores count
zero; completedWithConfidence never keeps an absent one). -/
def sumConfidence (ds : List Detection) : ℚ :=
  (ds.map (fun d => d.confidence_score.getD 0)).sum

/-- Count of records carrying a given result (reports.py filter(result=...)). -/
def countResult (ds : List Detection) (r : ResultCategory) : Nat :=
  ds.countP (fun d => d.result = some r)

/-- reports.py lines 83-113, get_report_data over the records of the
window, plus the two inline percentages of the summary table. -/
def get_report_data (ds : List Detection) : ReportData :=
  let total_scans := ds.length
  let fmd_detected := countResult ds .fmd
  let healthy_cattle := countResult ds .healthy
  let not_cow := countResult ds .not_cow
  let inconclusive := countResult ds .inconclusive
  let completed := completedWithConfidence ds
  let avg_confidence : ℚ :=
    if completed.length ≠ 0 then sumConfidence completed / completed.length else 0
  { total_scans := total_scans
    fmd_detected := fmd_detected
    healthy_cattle := healthy_cattle
    not_cow := not_cow
    inconclusive := inconclusive
    avg_confidence := avg_confidence
    fmd_percentage := if total_scans > 0 then (fmd_detected : ℚ) / total_scans * 100 else 0
    healthy_percentage := if total_scans > 0 then (healthy_cattle : ℚ) / total_scans * 100 else 0
    not_cow_percentage := if total_scans > 0 then (not_cow : ℚ) / total_scans * 100 else 0
    inconclusive_percentage := if total_scans > 0 then (inconclusive : ℚ) / total_scans * 100 else 0 }

def recUrgent : String :=
  "• <b>URGENT:</b> FMD cases detected. Implement immediate quarantine and contact veterinary services."

def recMassScreening : String :=
  "• High FMD detection rate. Consider mass screening of the entire herd."

def recMonitorMore : String :=
  "• Consider increasing monitoring frequency for early detection."

def recImageQuality : String :=
  "• Average confidence is below 70%. Ensure images are clear and well-lit for better accuracy."

def recAllHealthy : String :=
  "• ✓ All scanned cattle appear healthy. Continue regular monitoring and good farm hygiene practices."

/-- The generic three-item maintenance list of reports.py lines 280-282. -/
def genericRecommendations : List String :=
  ["• Continue regular monitoring and maintain good biosecurity practices.",
   "• Ensure all cattle are regularly checked for symptoms.",
   "• Keep records updated for trend analysis."]

/-- reports.py lines 260-284, _generate_recommendations: the five
threshold rules are evaluated independently and appended in fixed order;
the generic list is emitted only when no rule fired. -/
def generate_recommendations (rt : ReportType) (data : ReportData) : List String :=
  let recs : List String :=
    (if data.fmd_detected > 0 then [recUrgent] else [])
    ++ (if data.fmd_percentage > 10 then [recMassScreening] else [])
    ++ (if data.total_scans < 5 ∧ rt = ReportType.daily then [recMonitorMore] else [])
    ++ (if data.avg_confidence < 70 ∧ data.avg_confidence > 0 then [recImageQuality] else [])
    ++ (if data.healthy_cattle = data.total_scans then [recAllHealthy] else [])
  if recs.isEmpty then genericRecommendations else recs

/-! ## Upload form validation (detection/forms.py) -/

/-- An uploaded file as clean_image sees it: a size in bytes and a
content type, absent when the file object lacks the attribute (the code
guards the type check with hasattr). -/
structure UploadedImage where
  size : Nat
  content_type : Option String
  deriving DecidableEq, Repr

/-- forms.py line 158. -/
def valid_types : List String :=
  ["image/jpeg", "image/png", "image/jpg", "image/webp"]

/-- forms.py lines 148-163, DetectionUploadForm.clean_image: size check
first (10 MB bound), then the content-type whitelist, skipped when the
attribute is absent.  An error value models forms.ValidationError. -/
def clean_image (image : UploadedImage) : Except String UploadedImage :=
  if image.size > 10 * 1024 * 1024 then
    .error "Image file size cannot exceed 10MB."
  else
    match image.content_type with
    | some ct =>
      if ct ∈ valid_types then .ok image
      else .error "Only JPG, PNG, and WEBP images are allowed."
    | none => .ok image

/-- views.py lines 141-153: on an invalid form the view re-renders and
saves nothing; on a valid form it creates the record.  Returns the
created record, if any. -/
def uploadFormOutcome (img : UploadedImage) (id now : Nat) : Option Detection :=
  match clean_image img with
  | .error _ => none
  | .ok _ => some (newDetection id now)

/-! ## Lemmas on the maximum-confidence selection -/

theorem pickMax_cons (a b : Prediction) (l : List Prediction) :
    pickMax a (b :: l) =
      if getConfidence b > getConfidence a then pickMax b l else pickMax a l := by
  simp only [pickMax, List.foldl_cons]
  by_cases h : getConfidence b > getConfidence a <;> simp [h]

theorem le_conf_pickMax (a : Prediction) (l : List Prediction) :
    getConfidence a ≤ getConfidence (pickMax a l) := by
  induction l generalizing a with
  | nil => exact le_refl _
  | cons b l ih =>
    rw [pickMax_cons]
    by_cases h : getConfidence b > getConfidence a
    · rw [if_pos h]
      exact le_trans (le_of_lt h) (ih b)
    · rw [if_neg h]
      exact ih a

/-- The element picked by pickMax splits the list into a strictly
smaller part before it and a no-larger part after it: it is the
first-seen element attaining the maximum confidence. -/
theorem pickMax_decomp (a : Prediction) (l : List Prediction) :
    ∃ l₁ l₂, a :: l = l₁ ++ pickMax a l :: l₂ ∧
      (∀ q ∈ l₁, getConfidence q < getConfidence (pickMax a l)) ∧
      (∀ q ∈ l₂, getConfidence q ≤ getConfidence (pickMax a l)) := by
  induction l generalizing a with
  | nil => exact ⟨[], [], by simp [pickMax], by simp, by simp⟩
  | cons b l ih =>
    rw [pickMax_cons]
    by_cases h : getConfidence b > getConfidence a
    · rw [if_pos h]
      obtain ⟨l₁, l₂, heq, h₁, h₂⟩ := ih b
      refine ⟨a :: l₁, l₂, ?_, ?_, h₂⟩
      · rw [List.cons_append, ← heq]
      · intro q hq
        rcases List.mem_cons.mp hq with hqa | hql
        · subst hqa
          exact lt_of_lt_of_le h (le_conf_pickMax b l)
        · exact h₁ q hql
    · rw [if_neg h]
      push_neg at h
      obtain ⟨l₁, l₂, heq, h₁, h₂⟩ := ih a
      cases l₁ with
      | nil =>
        simp only [List.nil_append, List.cons.injEq] at heq
        obtain ⟨ha, hl⟩ := heq
        refine ⟨[], b :: l, by simp [← ha], by simp, ?_⟩
        intro q hq
        rcases List.mem_cons.mp hq with hqb | hql
        · subst hqb
          exact le_trans h (ha ▸ le_refl _)
        · exact h₂ q (hl ▸ hql)
      | cons x l₁ =>
        simp only [List.cons_append, List.cons.injEq] at heq
        obtain ⟨hx, hl⟩ := heq
        subst hx
        have hamem : getConfidence a < getConfidence (pickMax a l) :=
          h₁ a (List.mem_cons_self _ _)
        refine ⟨a :: b :: l₁, l₂, ?_, ?_, h₂⟩
        · conv_lhs => rw [hl]
          simp
        · intro q hq
          rcases List.mem_cons.mp hq with hqa | hq
          · subst hqa
            exact hamem
          rcases List.mem_cons.mp hq with hqb | hql
          · subst hqb
            exact lt_of_le_of_lt h hamem
          · exact h₁ q (List.mem_cons_of_mem _ hql)

theorem pickMax_mem (a : Prediction) (l : List Prediction) :
    pickMax a l ∈ a :: l := by
  obtain ⟨l₁, l₂, heq, _, _⟩ := pickMax_decomp a l
  rw [heq]
  simp

/-! ## Claims about the result classifier -/

/-- C1: on a non-empty prediction list, parse_roboflow_result selects
the maximum-confidence candidate with ties resolved to the first-seen
one (every earlier candidate is strictly smaller, every later one no
larger), and maps its label — lowercased, hence case-insensitively — by
substring tests in fixed priority order: the fmd / foot-and-mouth /
disease set wins first, else the healthy / normal set, else the cow /
cattle set, else not_cow; in particular a label containing both
"healthy" and "fmd" classifies as fmd (disease_positive). -/
theorem C1_classify_max_and_priority (p : Prediction) (ps : List Prediction) :
    (parse_roboflow_result ⟨some (p :: ps)⟩ =
      (mapClass (getClass (pickMax p ps)), round2 (getConfidence (pickMax p ps) * 100)))
    ∧ (∃ l₁ l₂, p :: ps = l₁ ++ pickMax p ps :: l₂ ∧
        (∀ q ∈ l₁, getConfidence q < getConfidence (pickMax p ps)) ∧
        (∀ q ∈ p :: ps, getConfidence q ≤ getConfidence (pickMax p ps)))
    ∧ (∀ q : Prediction, getClass q = lowerString (q.cls.getD ""))
    ∧ (∀ s : String,
        (strOccurs "fmd" s = true ∨ strOccurs "foot-and-mouth" s = true ∨
          strOccurs "disease" s = true) → mapClass s = .fmd)
    ∧ (∀ s : String,
        strOccurs "fmd" s = false → strOccurs "foot-and-mouth" s = false →
        strOccurs "disease" s = false →
        (strOccurs "healthy" s = true ∨ strOccurs "normal" s = true) →
        mapClass s = .healthy)
    ∧ (∀ s : String,
        strOccurs "fmd" s = false → strOccurs "foot-and-mouth" s = false →
        strOccurs "disease" s = false → strOccurs "healthy" s = false →
        strOccurs "normal" s = false →
        (strOccurs "cow" s = true ∨ strOccurs "cattle" s = true) →
        mapClass s = .inconclusive)
    ∧ (∀ s : String,
        strOccurs "fmd" s = false → strOccurs "foot-and-mouth" s = false →
        strOccurs "disease" s = false → strOccurs "healthy" s = false →
        strOccurs "normal" s = false → strOccurs "cow" s = false →
        strOccurs "cattle" s = false → mapClass s = .not_cow)
    ∧ mapClass "healthy fmd" = .fmd := by
  refine ⟨rfl, ?_, fun q => rfl, ?_, ?_, ?_, ?_, by decide⟩
  · obtain ⟨l₁, l₂, heq, h₁, h₂⟩ := pickMax_decomp p ps
    refine ⟨l₁, l₂, heq, h₁, ?_⟩
    intro q hq
    rw [heq] at hq
    rcases List.mem_append.mp hq with hql | hqr
    · exact le_of_lt (h₁ q hql)
    rcases List.mem_cons.mp hqr with hqm | hql₂
    · exact hqm ▸ le_refl _
    · exact h₂ q hql₂
  · intro s h
    unfold mapClass
    rw [if_pos]
    rcases h with h | h | h <;> simp [h]
  · intro s h1 h2 h3 h
    unfold mapClass
    rw [if_neg, if_pos]
    · rcases h with h | h <;> simp [h]
    · simp [h1, h2, h3]
  · intro s h1 h2 h3 h4 h5 h
    unfold mapClass
    rw [if_neg, if_neg, if_pos]
    · rcases h with h | h <;> simp [h]
    · simp [h4, h5]
    · simp [h1, h2, h3]
  · intro s h1 h2 h3 h4 h5 h6 h7
    unfold mapClass
    rw [if_neg, if_neg, if_neg]
    · simp [h6, h7]
    · simp [h4, h5]
    · simp [h1, h2, h3]

/-- Witness for C1: a single prediction labelled "Healthy FMD" with
confidence 0.83 is selected and classified as fmd at confidence 83. -/
theorem C1_witness :
    mapClass "healthy fmd" = ResultCategory.fmd ∧
    parse_roboflow_result ⟨some [⟨some "Healthy FMD", some (83/100)⟩]⟩ =
      (ResultCategory.fmd, 83) := by
  have h := C1_classify_max_and_priority ⟨some "Healthy FMD", some (83/100)⟩ []
  refine ⟨h.2.2.2.2.2.2.2, ?_⟩
  rw [h.1]
  refine Prod.ext ?_ ?_
  · decide
  · show round2 (getConfidence ⟨some "Healthy FMD", some (83/100)⟩ * 100) = 83
    norm_num [round2, roundHalfEven, getConfidence]

/-- C2: an absent or empty prediction list yields (not_cow, 0.0)
(services.py lines 73-77); not_cow is the not_subject of the spec. -/
theorem C2_empty_predictions :
    parse_roboflow_result ⟨none⟩ = (ResultCategory.not_cow, 0) ∧
    parse_roboflow_result ⟨some []⟩ = (ResultCategory.not_cow, 0) :=
  ⟨rfl, rfl⟩

/-- C3: parse_roboflow_result is a total function over responses with
any combination of missing fields (it never raises): a missing
confidence reads as 0, a missing class as the empty string, and a
prediction list whose entries all lack a class label falls through every
substring test to not_cow (not_subject). -/
theorem C3_malformed_never_raises :
    (∀ c, getConfidence ⟨c, none⟩ = 0)
    ∧ (∀ conf, getClass ⟨none, conf⟩ = "")
    ∧ (∀ p ps, (∀ q ∈ p :: ps, q.cls = none) →
        (parse_roboflow_result ⟨some (p :: ps)⟩).1 = ResultCategory.not_cow)
    ∧ parse_roboflow_result ⟨none⟩ = (ResultCategory.not_cow, 0) := by
  refine ⟨fun c => rfl, fun conf => rfl, ?_, rfl⟩
  intro p ps hall
  have hmem := pickMax_mem p ps
  have hcls : (pickMax p ps).cls = none := hall _ hmem
  show mapClass (getClass (pickMax p ps)) = ResultCategory.not_cow
  rw [getClass, hcls]
  decide

/-- Witness for C3: the prediction with both fields missing parses to
not_cow. -/
theorem C3_witness :
    (parse_roboflow_result ⟨some [⟨none, none⟩]⟩).1 = ResultCategory.not_cow :=
  C3_malformed_never_raises.2.2.1 ⟨none, none⟩ []
    (by intro q hq; rw [List.mem_singleton] at hq; rw [hq])

/-! ## Claims about the statistics aggregator -/

/-- Number of occurrences of a result in a sequence of updates. -/
def tally (rs : List ResultCategory) (r : ResultCategory) : Nat :=
  rs.countP (fun x => x = r)

theorem tally_cons (r : ResultCategory) (rs : List ResultCategory) (x : ResultCategory) :
    tally (r :: rs) x = tally rs x + if r = x then 1 else 0 := by
  simp [tally, List.countP_cons]

theorem update_total (s : SystemStatistics) (r : ResultCategory) :
    (update_statistics s r).total_scans = s.total_scans + 1 := by
  cases r <;> rfl

theorem update_fmd (s : SystemStatistics) (r : ResultCategory) :
    (update_statistics s r).fmd_detected =
      s.fmd_detected + if r = .fmd then 1 else 0 := by
  cases r <;> simp [update_statistics]

theorem update_healthy (s : SystemStatistics) (r : ResultCategory) :
    (update_statistics s r).healthy_cattle =
      s.healthy_cattle + if r = .healthy then 1 else 0 := by
  cases r <;> simp [update_statistics]

theorem update_not_cow (s : SystemStatistics) (r : ResultCategory) :
    (update_statistics s r).not_cow_detected =
      s.not_cow_detected + if r = .not_cow then 1 else 0 := by
  cases r <;> simp [update_statistics]

theorem runUpdates_counts (rs : List ResultCategory) (s : SystemStatistics) :
    (runUpdates s rs).total_scans = s.total_scans + rs.length ∧
    (runUpdates s rs).fmd_detected = s.fmd_detected + tally rs .fmd ∧
    (runUpdates s rs).healthy_cattle = s.healthy_cattle + tally rs .healthy ∧
    (runUpdates s rs).not_cow_detected = s.not_cow_detected + tally rs .not_cow := by
  induction rs generalizing s with
  | nil => simp [runUpdates, tally]
  | cons r rs ih =>
    obtain ⟨h1, h2, h3, h4⟩ := ih (update_statistics s r)
    simp only [runUpdates, List.foldl_cons] at h1 h2 h3 h4 ⊢
    refine ⟨?_, ?_, ?_, ?_⟩
    · rw [h1, update_total]
      simp
      omega
    · rw [h2, update_fmd, tally_cons]
      by_cases h : r = ResultCategory.fmd <;> simp [h] <;> omega
    · rw [h3, update_healthy, tally_cons]
      by_cases h : r = ResultCategory.healthy <;> simp [h] <;> omega
    · rw [h4, update_not_cow, tally_cons]
      by_cases h : r = ResultCategory.not_cow <;> simp [h] <;> omega

theorem length_eq_tally_sum (rs : List ResultCategory) :
    rs.length =
      tally rs .fmd + tally rs .healthy + tally rs .not_cow + tally rs .inconclusive := by
  induction rs with
  | nil => simp [tally]
  | cons r rs ih =>
    cases r <;> simp [tally, List.countP_cons] at * <;> omega

/-- C4: every update_statistics call adds one to total_scans and one to
the counter matching the result, inconclusive adding to no specific
counter; hence along any update sequence from a fresh daily row,
total_scans equals the three specific counters plus the number of
inconclusive updates, and in particular dominates their sum. -/
theorem C4_statistics_invariant (rs : List ResultCategory) :
    (∀ s r, (update_statistics s r).total_scans = s.total_scans + 1)
    ∧ (∀ s, (update_statistics s .fmd).fmd_detected = s.fmd_detected + 1
          ∧ (update_statistics s .fmd).healthy_cattle = s.healthy_cattle
          ∧ (update_statistics s .fmd).not_cow_detected = s.not_cow_detected)
    ∧ (∀ s, (update_statistics s .healthy).healthy_cattle = s.healthy_cattle + 1
          ∧ (update_statistics s .healthy).fmd_detected = s.fmd_detected
          ∧ (update_statistics s .healthy).not_cow_detected = s.not_cow_detected)
    ∧ (∀ s, (update_statistics s .not_cow).not_cow_detected = s.not_cow_detected + 1
          ∧ (update_statistics s .not_cow).fmd_detected = s.fmd_detected
          ∧ (update_statistics s .not_cow).healthy_cattle = s.healthy_cattle)
    ∧ (∀ s, (update_statistics s .inconclusive).fmd_detected = s.fmd_detected
          ∧ (update_statistics s .inconclusive).healthy_cattle = s.healthy_cattle
          ∧ (update_statistics s .inconclusive).not_cow_detected = s.not_cow_detected)
    ∧ ((runUpdates freshStats rs).total_scans =
        (runUpdates freshStats rs).fmd_detected
          + (runUpdates freshStats rs).healthy_cattle
          + (runUpdates freshStats rs).not_cow_detected
          + tally rs .inconclusive)
    ∧ ((runUpdates freshStats rs).fmd_detected
          + (runUpdates freshStats rs).healthy_cattle
          + (runUpdates freshStats rs).not_cow_detected
        ≤ (runUpdates freshStats rs).total_scans) := by
  have hc := runUpdates_counts rs freshStats
  have hl := length_eq_tally_sum rs
  refine ⟨?_, ?_, ?_, ?_, ?_, ?_, ?_⟩
  · intro s r
    cases r <;> rfl
  · intro s
    exact ⟨rfl, rfl, rfl⟩
  · intro s
    exact ⟨rfl, rfl, rfl⟩
  · intro s
    exact ⟨rfl, rfl, rfl⟩
  · intro s
    exact ⟨rfl, rfl, rfl⟩
  · obtain ⟨h1, h2, h3, h4⟩ := hc
    rw [h1, h2, h3, h4]
    simp [freshStats]
    omega
  · obtain ⟨h1, h2, h3, h4⟩ := hc
    rw [h1, h2, h3, h4]
    simp [freshStats]
    omega

/-! ## Claims about the detection record lifecycle -/

theorem createdIds_eq_range' (c n : Nat) : createdIds c n = List.range' c n := by
  induction n generalizing c with
  | zero => rfl
  | succ n ih =>
    show c :: createdIds (c + 1) n = List.range' c (n + 1)
    rw [ih]
    rfl

/-- C5: a record is created with a fresh unique id (successive allocator
states hand out pairwise distinct ids), status pending, no result, no
confidence, created timestamp now; and along the upload flow the record
statuses follow exactly pending, analyzing, then completed or failed,
every consecutive transition being one of the three permitted ones. -/
theorem C5_creation_and_transitions (id now c n : Nat)
    (api : Except String RoboflowResult) :
    ((newDetection id now).status = .pending
      ∧ (newDetection id now).result = none
      ∧ (newDetection id now).confidence_score = none
      ∧ (newDetection id now).uploaded_at = now
      ∧ (newDetection id now).analyzed_at = none
      ∧ (createDetection c now).1 = newDetection c now
      ∧ (createDetection c now).1.id = c
      ∧ (createDetection c now).2 = c + 1)
    ∧ (createdIds c n).Nodup
    ∧ ((uploadFlow id now api).map (fun d => d.status) = [.pending, .analyzing, .completed]
        ∨ (uploadFlow id now api).map (fun d => d.status) = [.pending, .analyzing, .failed])
    ∧ List.Chain' permittedTransition ((uploadFlow id now api).map (fun d => d.status)) := by
  refine ⟨⟨rfl, rfl, rfl, rfl, rfl, rfl, rfl, rfl⟩, ?_, ?_, ?_⟩
  · rw [createdIds_eq_range']
    exact List.nodup_range' _ _
  · cases api with
    | ok raw =>
      left
      simp [uploadFlow, analyze_cattle_image, newDetection, completeAnalysis]
    | error e =>
      right
      simp [uploadFlow, analyze_cattle_image, newDetection, failAnalysis]
  · cases api with
    | ok raw =>
      have : (uploadFlow id now (.ok raw)).map (fun d => d.status)
          = [.pending, .analyzing, .completed] := by
        simp [uploadFlow, analyze_cattle_image, newDetection, completeAnalysis]
      rw [this]
      simp only [List.chain'_cons, List.chain'_singleton]
      exact ⟨trivial, trivial, trivial⟩
    | error e =>
      have : (uploadFlow id now (.error e)).map (fun d => d.status)
          = [.pending, .analyzing, .failed] := by
        simp [uploadFlow, analyze_cattle_image, newDetection, failAnalysis]
      rw [this]
      simp only [List.chain'_cons, List.chain'_singleton]
      exact ⟨trivial, trivial, trivial⟩

/-- C6, counterexample: the code of views.py lines 162-171 performs no
state check.  Applied to a freshly created record (status pending, not
analyzing), the completion step does not raise InvalidTransition — no
such error exists anywhere in the repository — and it does modify the
record, moving it straight to completed. -/
theorem C6_counterexample :
    (newDetection 0 0).status = Status.pending
    ∧ (completeAnalysis (newDetection 0 0) ⟨true, .completed, .healthy, 90⟩ 5).status
        = Status.completed
    ∧ completeAnalysis (newDetection 0 0) ⟨true, .completed, .healthy, 90⟩ 5
        ≠ newDetection 0 0 := by
  refine ⟨rfl, rfl, fun h => ?_⟩
  have hstat := congrArg Detection.status h
  simp [completeAnalysis, newDetection] at hstat

/-- C6 amended: the completion step is unguarded — it unconditionally
overwrites status, result, confidence and the analyzed timestamp of any
record, raising nothing; in the upload flow it is only ever applied to
the record in the analyzing state, so the analyzing-to-completed
transition is the only one exercised. -/
theorem C6_amended_unguarded_completion (d : Detection) (a : AnalysisResult)
    (now id t : Nat) (raw : RoboflowResult) :
    completeAnalysis d a now =
      { d with
        status := a.status
        result := some a.result
        confidence_score := some a.confidence_score
        analyzed_at := some now }
    ∧ (completeAnalysis d a now).id = d.id
    ∧ (completeAnalysis d a now).uploaded_at = d.uploaded_at
    ∧ uploadFlow id t (.ok raw) =
        [newDetection id t,
         { newDetection id t with status := .analyzing },
         completeAnalysis { newDetection id t with status := .analyzing }
           (analyze_cattle_image (.ok raw)) t]
    ∧ ({ newDetection id t with status := .analyzing }).status = Status.analyzing := by
  refine ⟨rfl, rfl, rfl, ?_, rfl⟩
  simp [uploadFlow, analyze_cattle_image]

/-- C7, counterexample: on the failure branch the code assigns only the
status field (views.py lines 190-192); the analyzed timestamp stays
absent rather than being set to now. -/
theorem C7_counterexample :
    (failAnalysis { newDetection 0 0 with status := .analyzing }).status = Status.failed
    ∧ (failAnalysis { newDetection 0 0 with status := .analyzing }).analyzed_at = none
    ∧ (failAnalysis { newDetection 0 0 with status := .analyzing }).analyzed_at
        ≠ some 0 := by
  exact ⟨rfl, rfl, fun h => by simp [failAnalysis, newDetection] at h⟩

/-- C7 amended: failAnalysis transitions the analyzing record to failed
with result and confidence still absent and no statistics update, but it
leaves the analyzed timestamp untouched (absent), not set to now. -/
theorem C7_amended_fail_frame (id now : Nat) (msg : String) (d : Detection) :
    ((failAnalysis d).status = Status.failed
      ∧ (failAnalysis d).result = d.result
      ∧ (failAnalysis d).confidence_score = d.confidence_score
      ∧ (failAnalysis d).analyzed_at = d.analyzed_at
      ∧ (failAnalysis d).id = d.id
      ∧ (failAnalysis d).uploaded_at = d.uploaded_at)
    ∧ uploadFlow id now (.error msg) =
        [newDetection id now,
         { newDetection id now with status := .analyzing },
         failAnalysis { newDetection id now with status := .analyzing }]
    ∧ (failAnalysis { newDetection id now with status := .analyzing }).result = none
    ∧ (failAnalysis { newDetection id now with status := .analyzing }).confidence_score
        = none
    ∧ (failAnalysis { newDetection id now with status := .analyzing }).analyzed_at = none
    ∧ uploadFlowStats (.error msg) = false := by
  refine ⟨⟨rfl, rfl, rfl, rfl, rfl, rfl⟩, ?_, rfl, rfl, rfl, rfl⟩
  simp [uploadFlow, analyze_cattle_image]

/-! ## Claims about the report summarizer -/

/-- C8: on a window with no records every per-category percentage of the
report data is 0 (the guarded formulas never divide), and the average
confidence is 0 whenever the window holds no completed record with a
confidence value. -/
theorem C8_zero_window_safe (ds : List Detection) :
    (ds.length = 0 →
      (get_report_data ds).fmd_percentage = 0
      ∧ (get_report_data ds).healthy_percentage = 0
      ∧ (get_report_data ds).not_cow_percentage = 0
      ∧ (get_report_data ds).inconclusive_percentage = 0
      ∧ (get_report_data ds).avg_confidence = 0)
    ∧ (completedWithConfidence ds = [] → (get_report_data ds).avg_confidence = 0) := by
  constructor
  · intro h
    rw [List.length_eq_zero] at h
    subst h
    refine ⟨rfl, rfl, rfl, rfl, rfl⟩
  · intro h
    simp [get_report_data, h]

/-- Witness for C8: the empty window. -/
theorem C8_witness :
    (get_report_data []).fmd_percentage = 0 ∧ (get_report_data []).avg_confidence = 0 :=
  ⟨((C8_zero_window_safe []).1 rfl).1, (C8_zero_window_safe []).2 rfl⟩

/-- C9, counterexample: on a window with 0 records the all-healthy rule
of reports.py line 276 fires, because healthy_cattle == total_scans
holds as 0 == 0; the recommendation list is therefore non-empty before
the generic fallback is consulted, and the generic three-item list is
not returned. -/
theorem C9_counterexample :
    generate_recommendations .weekly (get_report_data []) = [recAllHealthy]
    ∧ generate_recommendations .weekly (get_report_data []) ≠ genericRecommendations := by
  exact ⟨rfl, by decide⟩

/-- C9 amended: for a window with 0 records the recommendation list is
the all-healthy notice alone for weekly and monthly reports, and the
monitoring-frequency notice followed by the all-healthy notice for daily
reports (the total < 5 daily rule also fires); it is never the generic
three-item maintenance list, which is reserved for data firing no rule. -/
theorem C9_amended_zero_window_recommendations :
    generate_recommendations .daily (get_report_data []) = [recMonitorMore, recAllHealthy]
    ∧ generate_recommendations .weekly (get_report_data []) = [recAllHealthy]
    ∧ generate_recommendations .monthly (get_report_data []) = [recAllHealthy]
    ∧ genericRecommendations.length = 3
    ∧ generate_recommendations .daily (get_report_data []) ≠ genericRecommendations
    ∧ generate_recommendations .monthly (get_report_data []) ≠ genericRecommendations := by
  exact ⟨rfl, rfl, rfl, rfl, by decide, by decide⟩

/-! ## Claim about upload validation -/

/-- C10: for an uploaded file carrying a content type, clean_image
rejects exactly when the size exceeds 10 MB or the content type is
outside the image/jpeg, image/png, image/jpg, image/webp whitelist;
on rejection the view creates no record, on acceptance it creates the
fresh pending record. -/
theorem C10_upload_validation (img : UploadedImage) (ct : String) (id now : Nat)
    (h : img.content_type = some ct) :
    ((∃ e, clean_image img = .error e) ↔
      (img.size > 10 * 1024 * 1024 ∨ ct ∉ valid_types))
    ∧ (clean_image img = .ok img ↔
        (img.size ≤ 10 * 1024 * 1024 ∧ ct ∈ valid_types))
    ∧ (uploadFormOutcome img id now = none ↔ (∃ e, clean_image img = .error e))
    ∧ (uploadFormOutcome img id now = some (newDetection id now) ↔
        clean_image img = .ok img) := by
  by_cases hs : img.size > 10 * 1024 * 1024
  · have hclean : clean_image img = .error "Image file size cannot exceed 10MB." := by
      simp [clean_image, hs]
    refine ⟨?_, ?_, ?_, ?_⟩
    · simp [hclean, hs]
    · simp [hclean]
      omega
    · simp [uploadFormOutcome, hclean]
    · simp [uploadFormOutcome, hclean]
  · by_cases hm : ct ∈ valid_types
    · have hclean : clean_image img = .ok img := by
        simp [clean_image, hs, h, hm]
      refine ⟨?_, ?_, ?_, ?_⟩
      · simp [hclean, hs, hm]
      · simp [hclean, hm]
        omega
      · simp [uploadFormOutcome, hclean]
      · simp [uploadFormOutcome, hclean]
    · have hclean : clean_image img = .error "Only JPG, PNG, and WEBP images are allowed." := by
        simp [clean_image, hs, h, hm]
      refine ⟨?_, ?_, ?_, ?_⟩
      · simp [hclean, hm]
      · simp [hclean]
        exact fun _ => hm
      · simp [uploadFormOutcome, hclean]
      · simp [uploadFormOutcome, hclean]

/-- Witness for C10: a 5000-byte PNG upload is accepted and a record is
created. -/
theorem C10_witness :
    clean_image ⟨5000, some "image/png"⟩ = .ok ⟨5000, some "image/png"⟩
    ∧ uploadFormOutcome ⟨5000, some "image/png"⟩ 0 0 = some (newDetection 0 0) := by
  have h := C10_upload_validation ⟨5000, some "image/png"⟩ "image/png" 0 0 rfl
  have hok : clean_image ⟨5000, some "image/png"⟩ = .ok ⟨5000, some "image/png"⟩ :=
    h.2.1.mpr ⟨by norm_num, by decide⟩
  exact ⟨hok, h.2.2.2.mpr hok⟩

end FMD
